import Mathlib

/-!
Verification of `nefertari_es/fields.py`: field-type adapters bridging an
object-document mapping layer to an elasticsearch document schema.

The embedding models Python runtime values with the inductive `Value`
(covering the types the module inspects with `isinstance`: `int`, `bool`,
`str`, `datetime.datetime`, `datetime.time`, `datetime.timedelta`, `list`,
`AttrDict`, `AttrList`, and document instances), Python keyword-argument
dictionaries with association lists over `Key := List Char` (Python strings
as character lists), and the external flexible date parser
(`dateutil.parser.parse`) as an explicit function parameter, since its
behaviour is not part of this repository.
-/

/-- Time-of-day value, modelling Python `datetime.time`. -/
structure Time where
  hour : Nat
  minute : Nat
  second : Nat
  microsecond : Nat
deriving DecidableEq

/-- Timestamp value, modelling Python `datetime.datetime`; `time` is the
time-of-day component returned by the `datetime.time()` method. -/
structure Datetime where
  year : Nat
  month : Nat
  day : Nat
  time : Time
deriving DecidableEq

/-- Python runtime values that the field adapters inspect. A `timedelta` is
identified by its total length in seconds; `doc cls` is an instance of the
document class registered under the name `cls`. -/
inductive Value where
  | none
  | bool (b : Bool)
  | int (n : Int)
  | str (s : String)
  | datetime (d : Datetime)
  | time (t : Time)
  | timedelta (seconds : Int)
  | list (xs : List Value)
  | attrList (xs : List Value)
  | attrDict (entries : List (String × Value))
  | doc (cls : String)

/-- Python truthiness test (`not data` is `isFalsy data = true`): `None`,
`False`, zero, the empty string, empty containers and the zero duration are
falsy; datetimes, times and document instances are truthy. -/
def Value.isFalsy : Value → Bool
  | Value.none => true
  | Value.bool b => !b
  | Value.int n => n == 0
  | Value.str s => s == ""
  | Value.datetime _ => false
  | Value.time _ => false
  | Value.timedelta s => s == 0
  | Value.list xs => xs.isEmpty
  | Value.attrList xs => xs.isEmpty
  | Value.attrDict es => es.isEmpty
  | Value.doc _ => false

/-- Errors raised by the module: `validationException msg original cause`
models `elasticsearch_dsl.exceptions.ValidationException(msg % original,
cause)`, carrying the offending raw value and the underlying failure;
`documentLookupError name` models the lookup error raised by
`get_document_cls` for an unregistered document-class name. -/
inductive FieldError where
  | validationException (msg : String) (original : Value) (cause : String)
  | documentLookupError (name : String)

/-- Keys of Python keyword-argument and mapping dictionaries, modelled as
character lists. -/
abbrev Key := List Char

/-- A Python `dict` with string keys, as an association list (first entry
wins on lookup; the operations below keep keys unique as `dict` does). -/
abbrev Kwargs := List (Key × Value)

/-- Dictionary lookup: value of the first entry with key `k`, if any. -/
def Kwargs.get? : Kwargs → Key → Option Value
  | [], _ => Option.none
  | (k', v) :: rest, k => if k' = k then some v else Kwargs.get? rest k

/-- Remove every entry with key `k` (on a dict, the one entry). -/
def Kwargs.removeAll : Kwargs → Key → Kwargs
  | [], _ => []
  | (k', v) :: rest, k =>
      if k' = k then Kwargs.removeAll rest k
      else (k', v) :: Kwargs.removeAll rest k

/-- Python `kwargs[k] = v`: bind `k` to `v`, replacing any previous binding. -/
def Kwargs.set (kw : Kwargs) (k : Key) (v : Value) : Kwargs :=
  (k, v) :: Kwargs.removeAll kw k

/-- Python `kwargs.pop(k, dflt)`: the bound value (or the default) together
with the dictionary without `k`. -/
def Kwargs.pop (kw : Kwargs) (k : Key) (dflt : Value) : Value × Kwargs :=
  ((Kwargs.get? kw k).getD dflt, Kwargs.removeAll kw k)

/-- Entries of `base` whose key is not bound in `upd`. -/
def Kwargs.removeKeys : Kwargs → Kwargs → Kwargs
  | [], _ => []
  | (k, v) :: rest, upd =>
      if (Kwargs.get? upd k).isSome then Kwargs.removeKeys rest upd
      else (k, v) :: Kwargs.removeKeys rest upd

/-- Python `base.update(upd)`: entries of `upd` override entries of `base`;
entries of `base` with keys not in `upd` are kept. -/
def Kwargs.update (base upd : Kwargs) : Kwargs :=
  upd ++ Kwargs.removeKeys base upd

def keyMulti : Key := "multi".toList
def keyRequired : Key := "required".toList
def keyPrimaryKey : Key := "primary_key".toList
def keyType : Key := "type".toList
def keyEnabled : Key := "enabled".toList
def keyFormat : Key := "format".toList

/-- State of a constructed field descriptor. `primaryKey` is the
`_primary_key` attribute (absent — `Option.none` — on classes that do not
include `BaseFieldMixin`); `required` and `multi` are the raw values stored
by the base constructor as `_required` and `_multi`; `params` are the
remaining keyword arguments the base `DslBase` constructor keeps. -/
structure FieldState where
  primaryKey : Option Value
  required : Value
  multi : Value
  params : Kwargs

/-- The external base constructor `elasticsearch_dsl.field.Field.__init__`:
pops `multi` and `required` (both defaulting to `False`) and stores the
remaining keyword arguments as parameters. -/
def Field.init (kwargs : Kwargs) : FieldState :=
  let pm := Kwargs.pop kwargs keyMulti (Value.bool false)
  let pr := Kwargs.pop pm.2 keyRequired (Value.bool false)
  { primaryKey := Option.none, required := pr.1, multi := pm.1, params := pr.2 }

/-- `BaseFieldMixin.__init__`: pops `primary_key` (default `False`); if it is
truthy, sets `kwargs[required] = True`; then delegates to the base
constructor, and records the popped value as `_primary_key`. -/
def BaseFieldMixin.init (kwargs : Kwargs) : FieldState :=
  let pk := Kwargs.pop kwargs keyPrimaryKey (Value.bool false)
  let kwargs2 := if pk.1.isFalsy then pk.2 else Kwargs.set pk.2 keyRequired (Value.bool true)
  let st := Field.init kwargs2
  { st with primaryKey := some pk.1 }

/-- `IdField.__init__`: forces `kwargs[primary_key] = True`, delegates to
`BaseFieldMixin`, then overwrites `self._required = False`. -/
def IdField.init (kwargs : Kwargs) : FieldState :=
  let st := BaseFieldMixin.init (Kwargs.set kwargs keyPrimaryKey (Value.bool true))
  { st with required := Value.bool false }

/-- `IdField._empty`: the empty value of the identifier field is `None`. -/
def IdField.emptyValue : Value := Value.none

/-- `IdField._custom_mapping`. -/
def IdField.customMapping : Kwargs := [(keyType, Value.str "string")]

/-- The scalar field classes are `class XField(BaseFieldMixin, field.Y):
pass` — their constructor is exactly the mixin constructor over the base. -/
def IntegerField.init : Kwargs → FieldState := BaseFieldMixin.init

def SmallIntegerField.init : Kwargs → FieldState := BaseFieldMixin.init

def StringField.init : Kwargs → FieldState := BaseFieldMixin.init

def TextField.init : Kwargs → FieldState := BaseFieldMixin.init

def UnicodeField.init : Kwargs → FieldState := BaseFieldMixin.init

def UnicodeTextField.init : Kwargs → FieldState := BaseFieldMixin.init

def BigIntegerField.init : Kwargs → FieldState := BaseFieldMixin.init

def BooleanField.init : Kwargs → FieldState := BaseFieldMixin.init

def FloatField.init : Kwargs → FieldState := BaseFieldMixin.init

def BinaryField.init : Kwargs → FieldState := BaseFieldMixin.init

def DecimalField.init : Kwargs → FieldState := BaseFieldMixin.init

def IntervalField.init : Kwargs → FieldState := BaseFieldMixin.init

def DictField.init : Kwargs → FieldState := BaseFieldMixin.init

def DateTimeField.init : Kwargs → FieldState := BaseFieldMixin.init

def DateField.init : Kwargs → FieldState := BaseFieldMixin.init

def TimeField.init : Kwargs → FieldState := BaseFieldMixin.init

/-- The `_to_python` that `elasticsearch_dsl.field.Integer` inherits: the
library's `Integer` class does not override `Field._to_python`, which
returns its argument unchanged (the class body is only `name = integer`,
which is also why `IntervalField` has to set `_coerce = True` itself). -/
def Integer.toPythonBase (data : Value) : Value := data

/-- `IntervalField._to_python`: an `int` (Python `bool` is an `int`; `True`
counts as 1) becomes `timedelta(seconds=data)`; anything else is delegated
to the base integer coercion. -/
def IntervalField.toPython (data : Value) : Value :=
  match data with
  | Value.int n => Value.timedelta n
  | Value.bool b => Value.timedelta (if b then 1 else 0)
  | d => Integer.toPythonBase d

/-- Message of the `ValidationException` raised by `DateTimeField`. -/
def dtParseMsg : String := "Could not parse datetime from the value"

/-- Message of the `ValidationException` raised by `TimeField`. -/
def timeParseMsg : String := "Could not parse time from the value"

/-- Cause recorded when `dateutil.parser.parse` receives a non-string. -/
def parserTypeError : String := "TypeError: parser must be given a string"

/-- `DateTimeField._to_python`, parametrised by the external flexible parser
`dateutil.parser.parse` (`parse s` is its result on the string `s`): falsy
input gives `None`; a `datetime` is returned unchanged; any other value is
handed to the parser inside `try`, and any failure becomes a
`ValidationException` carrying the raw value and the underlying error. -/
def DateTimeField.toPython (parse : String → Except String Datetime)
    (data : Value) : Except FieldError Value :=
  if data.isFalsy then Except.ok Value.none
  else
    match data with
    | Value.datetime _ => Except.ok data
    | Value.str s =>
        match parse s with
        | Except.ok d => Except.ok (Value.datetime d)
        | Except.error e =>
            Except.error (FieldError.validationException dtParseMsg data e)
    | _ => Except.error (FieldError.validationException dtParseMsg data parserTypeError)

/-- `TimeField._to_python`: falsy input gives `None`; a `time` is returned
unchanged; a `datetime` is truncated to `data.time()`; any other value is
parsed with the flexible parser and truncated, parse failure becoming a
`ValidationException` carrying the raw value and the underlying error. -/
def TimeField.toPython (parse : String → Except String Datetime)
    (data : Value) : Except FieldError Value :=
  if data.isFalsy then Except.ok Value.none
  else
    match data with
    | Value.time _ => Except.ok data
    | Value.datetime d => Except.ok (Value.time d.time)
    | Value.str s =>
        match parse s with
        | Except.ok d => Except.ok (Value.time d.time)
        | Except.error e =>
            Except.error (FieldError.validationException timeParseMsg data e)
    | _ => Except.error (FieldError.validationException timeParseMsg data parserTypeError)

/-- `CustomMappingMixin.to_dict`: the base export, updated in place with the
custom mapping when one is set. -/
def CustomMappingMixin.toDict (baseDict : Kwargs) (customMapping : Option Kwargs) : Kwargs :=
  match customMapping with
  | Option.none => baseDict
  | some m => Kwargs.update baseDict m

/-- `DictField._custom_mapping`. -/
def DictField.customMapping : Kwargs :=
  [(keyType, Value.str "object"), (keyEnabled, Value.bool false)]

/-- `DictField.to_dict` as inherited from `CustomMappingMixin`, applied to
whatever the base export produced. -/
def DictField.toDict (baseDict : Kwargs) : Kwargs :=
  CustomMappingMixin.toDict baseDict (some DictField.customMapping)

/-- `DateTimeField._custom_mapping`. -/
def DateTimeField.customMapping : Kwargs :=
  [(keyType, Value.str "date"), (keyFormat, Value.str "dateOptionalTime")]

/-- `TimeField._custom_mapping`. -/
def TimeField.customMapping : Kwargs :=
  [(keyType, Value.str "date"), (keyFormat, Value.str "HH:mm:ss")]

/-- The `backref_` option marker of `ReferenceField` (`_backref_prefix`),
of length 8. -/
def backrefMarker : Key := "backref_".toList

/-- State of a constructed `ReferenceField`. The class does not include
`BaseFieldMixin`, so there is no `_primary_key` handling; `docClassName` is
the stored `_doc_class_name`. -/
structure RefFieldState where
  backrefKwargs : Kwargs
  isBackref : Bool
  docClassName : String
  base : FieldState

/-- The kwarg split performed by `ReferenceField.__init__`: entries whose
key starts with `backref_` go to `_backref_kwargs` with the marker
stripped, and are deleted from the kwargs passed on to the base. -/
def ReferenceField.extractBackrefs : Kwargs → Kwargs × Kwargs
  | [] => ([], [])
  | (k, v) :: rest =>
      let p := ReferenceField.extractBackrefs rest
      if k.take 8 = backrefMarker then ((k.drop 8, v) :: p.1, p.2)
      else (p.1, (k, v) :: p.2)

/-- `ReferenceField.__init__`: extract the `backref_`-marked options, record
`is_backref` and the target document-class name, and pass the remaining
kwargs to the base `field.String` constructor (which is `Field.__init__`). -/
def ReferenceField.init (docClass : String) (isBackref : Bool) (kwargs : Kwargs) : RefFieldState :=
  let p := ReferenceField.extractBackrefs kwargs
  { backrefKwargs := p.1, isBackref := isBackref, docClassName := docClass,
    base := Field.init p.2 }

/-- Modelled from the spec: `get_document_cls`, imported from the
repository's `meta` module, which is not among the given sources — it looks
up the target document class by name in a process-wide registry and fails
with a lookup error if the name is unregistered at access time. The
registry is the list of registered class names and a class is identified by
its name. -/
def get_document_cls (registry : List String) (name : String) : Except FieldError String :=
  if registry.contains name then Except.ok name
  else Except.error (FieldError.documentLookupError name)

/-- The `isinstance(data, types)` test of `ReferenceField.clean`, with
`types = (self._doc_class, list, AttrDict, AttrList)` for the resolved
class `cls`. -/
def ReferenceField.matchesCleanTypes (cls : String) : Value → Bool
  | Value.doc c => c == cls
  | Value.list _ => true
  | Value.attrDict _ => true
  | Value.attrList _ => true
  | _ => false

/-- `ReferenceField.clean`: first resolves `self._doc_class` through the
registry (building the `types` tuple), propagating the lookup error if the
name is unregistered; then, if `data` is an instance of one of the types,
delegates to the base `clean` (external `field.String` behaviour, passed as
`baseClean`), and otherwise returns `data` unmodified. -/
def ReferenceField.clean (registry : List String) (f : RefFieldState)
    (baseClean : Value → Except FieldError Value) (data : Value) :
    Except FieldError Value :=
  match get_document_cls registry f.docClassName with
  | Except.error e => Except.error e
  | Except.ok cls =>
      if ReferenceField.matchesCleanTypes cls data then baseClean data
      else Except.ok data

/-- `ReferenceField._backref_field_name`. -/
def ReferenceField.backrefFieldName (f : RefFieldState) : Option Value :=
  Kwargs.get? f.backrefKwargs ("name".toList)

section Lemmas

/-- Removing entries of a different key does not change a lookup. -/
theorem Kwargs.get_removeAll_ne (kw : Kwargs) (k k' : Key) (h : k ≠ k') :
    Kwargs.get? (Kwargs.removeAll kw k') k = Kwargs.get? kw k := by
  induction kw with
  | nil => rfl
  | cons p rest ih =>
    obtain ⟨pk, pv⟩ := p
    by_cases hk : pk = k'
    · subst hk
      simp [Kwargs.removeAll, Kwargs.get?, Ne.symm h, ih]
    · by_cases hpk : pk = k
      · subst hpk
        simp [Kwargs.removeAll, Kwargs.get?, hk]
      · simp [Kwargs.removeAll, Kwargs.get?, hk, hpk, ih]

/-- Looking up the key just set returns the new value. -/
theorem Kwargs.get_set_self (kw : Kwargs) (k : Key) (v : Value) :
    Kwargs.get? (Kwargs.set kw k v) k = some v := by
  simp [Kwargs.set, Kwargs.get?]

/-- The `_required` stored by the base constructor is the value bound to
`required` in the kwargs, defaulting to `False`. -/
theorem Field.init_required (kwargs : Kwargs) :
    (Field.init kwargs).required
      = (Kwargs.get? kwargs keyRequired).getD (Value.bool false) := by
  simp [Field.init, Kwargs.pop,
    Kwargs.get_removeAll_ne kwargs keyRequired keyMulti (by decide)]

/-- A lookup in an updated dictionary: keys of the update win, all other
keys fall through to the base dictionary. -/
theorem Kwargs.get_update (base upd : Kwargs) (k : Key) :
    Kwargs.get? (Kwargs.update base upd) k
      = match Kwargs.get? upd k with
        | some v => some v
        | Option.none => Kwargs.get? base k := by
  unfold Kwargs.update
  induction upd generalizing base with
  | nil =>
    simp [Kwargs.get?]
    induction base with
    | nil => rfl
    | cons p rest ih =>
      obtain ⟨pk, pv⟩ := p
      by_cases hpk : pk = k <;> simp [Kwargs.removeKeys, Kwargs.get?, hpk, ih]
  | cons p rest ih =>
    obtain ⟨pk, pv⟩ := p
    by_cases hpk : pk = k
    · subst hpk
      simp [Kwargs.get?]
    · have step : ∀ b : Kwargs,
          Kwargs.removeKeys b ((pk, pv) :: rest)
            = Kwargs.removeKeys (Kwargs.removeAll b pk) rest := by
        intro b
        induction b with
        | nil => rfl
        | cons q br ihb =>
          obtain ⟨qk, qv⟩ := q
          by_cases hq : qk = pk
          · subst hq
            simp [Kwargs.removeKeys, Kwargs.removeAll, Kwargs.get?, ihb]
          · simp [Kwargs.removeKeys, Kwargs.removeAll, Kwargs.get?, hq, Ne.symm hq, ihb]
      rw [step base]
      simp only [Kwargs.get?, if_neg hpk, List.cons_append, List.append_eq]
      rw [ih (Kwargs.removeAll base pk),
        Kwargs.get_removeAll_ne base k pk (fun hh => hpk hh.symm)]

end Lemmas

/-- C1: each coercion rule in the module (interval, datetime, time) returns
an already-typed value (a `timedelta`, a `datetime`, a `time` respectively)
unchanged: the interval coercion falls through to the identity base
`_to_python`, and the datetime and time coercions return the value from
their explicit `isinstance` branch. -/
theorem coercion_idempotent_on_typed_values :
    (∀ s : Int, IntervalField.toPython (Value.timedelta s) = Value.timedelta s)
    ∧ (∀ (parse : String → Except String Datetime) (d : Datetime),
        DateTimeField.toPython parse (Value.datetime d) = Except.ok (Value.datetime d))
    ∧ (∀ (parse : String → Except String Datetime) (t : Time),
        TimeField.toPython parse (Value.time t) = Except.ok (Value.time t)) :=
  ⟨fun _ => rfl, fun _ _ => rfl, fun _ _ => rfl⟩

/-- C7: whatever options are passed, constructing `IdField` yields
`_required = False` and `_primary_key = True`, and its `_empty` returns
`None`. -/
theorem idfield_not_required_primary_key (kwargs : Kwargs) :
    (IdField.init kwargs).required = Value.bool false
    ∧ (IdField.init kwargs).primaryKey = some (Value.bool true)
    ∧ IdField.emptyValue = Value.none := by
  refine ⟨rfl, ?_, rfl⟩
  simp [IdField.init, BaseFieldMixin.init, Kwargs.pop, Kwargs.get_set_self]

/-- C9: the schema export of a field with a custom mapping fragment binds
every key of the fragment to the fragment's value, and leaves every other
key of the base export unchanged (the merge only adds or overrides, never
removes); in particular the export of `DictField` always contains
`type = object` and `enabled = False`. -/
theorem custom_mapping_merge (base m : Kwargs) (k : Key) :
    (Kwargs.get? (CustomMappingMixin.toDict base (some m)) k
      = match Kwargs.get? m k with
        | some v => some v
        | Option.none => Kwargs.get? base k)
    ∧ Kwargs.get? (DictField.toDict base) keyType = some (Value.str "object")
    ∧ Kwargs.get? (DictField.toDict base) keyEnabled = some (Value.bool false) := by
  refine ⟨Kwargs.get_update base m k, ?_, ?_⟩
  · rw [DictField.toDict, CustomMappingMixin.toDict, Kwargs.get_update]
    rfl
  · rw [DictField.toDict, CustomMappingMixin.toDict, Kwargs.get_update]
    rfl

/-- A non-empty string is truthy. -/
theorem isFalsy_str_false (s : String) (hs : s ≠ "") :
    (Value.str s).isFalsy = false := by
  simp [Value.isFalsy, hs]

/-- C4: datetime coercion returns `None` on every falsy input, returns an
already-typed `datetime` unchanged, returns the flexible parser's result on
every non-empty string, and on parse failure raises the
`ValidationException` carrying the original value and the parser error. -/
theorem datetime_coercion_contract (parse : String → Except String Datetime) :
    (∀ data : Value, data.isFalsy = true →
        DateTimeField.toPython parse data = Except.ok Value.none)
    ∧ (∀ d : Datetime,
        DateTimeField.toPython parse (Value.datetime d) = Except.ok (Value.datetime d))
    ∧ (∀ (s : String) (d : Datetime), s ≠ "" → parse s = Except.ok d →
        DateTimeField.toPython parse (Value.str s) = Except.ok (Value.datetime d))
    ∧ (∀ s e : String, s ≠ "" → parse s = Except.error e →
        DateTimeField.toPython parse (Value.str s)
          = Except.error (FieldError.validationException dtParseMsg (Value.str s) e)) := by
  refine ⟨?_, fun d => rfl, ?_, ?_⟩
  · intro data h
    simp [DateTimeField.toPython, h]
  · intro s d hs hp
    simp [DateTimeField.toPython, isFalsy_str_false s hs, hp]
  · intro s e hs hp
    simp [DateTimeField.toPython, isFalsy_str_false s hs, hp]

/-- Concrete datetime used by the coercion witnesses. -/
def fixtureDt : Datetime := ⟨2015, 9, 10, ⟨13, 44, 1, 0⟩⟩

/-- Concrete stand-in for the flexible parser, used by the coercion
witnesses: accepts one datetime string and rejects everything else. -/
def parseFixture (s : String) : Except String Datetime :=
  if s = "2015-09-10 13:44:01" then Except.ok fixtureDt
  else Except.error "ValueError"

theorem datetime_coercion_contract_witness :
    Value.isFalsy Value.none = true
    ∧ DateTimeField.toPython parseFixture Value.none = Except.ok Value.none
    ∧ parseFixture "2015-09-10 13:44:01" = Except.ok fixtureDt
    ∧ DateTimeField.toPython parseFixture (Value.str "2015-09-10 13:44:01")
        = Except.ok (Value.datetime fixtureDt)
    ∧ DateTimeField.toPython parseFixture (Value.str "tomato")
        = Except.error (FieldError.validationException dtParseMsg
            (Value.str "tomato") "ValueError") :=
  ⟨rfl,
   (datetime_coercion_contract parseFixture).1 Value.none rfl,
   rfl,
   (datetime_coercion_contract parseFixture).2.2.1 "2015-09-10 13:44:01" fixtureDt
     (by decide) rfl,
   (datetime_coercion_contract parseFixture).2.2.2 "tomato" "ValueError"
     (by decide) rfl⟩

/-- C5: time coercion on a full timestamp returns exactly its time-of-day
component, and on a non-empty string returns the time-of-day component of
the datetime produced by the flexible parser. -/
theorem time_coercion_time_component (parse : String → Except String Datetime) :
    (∀ d : Datetime,
        TimeField.toPython parse (Value.datetime d) = Except.ok (Value.time d.time))
    ∧ (∀ (s : String) (d : Datetime), s ≠ "" → parse s = Except.ok d →
        TimeField.toPython parse (Value.str s) = Except.ok (Value.time d.time)) := by
  refine ⟨fun d => rfl, ?_⟩
  intro s d hs hp
  simp [TimeField.toPython, isFalsy_str_false s hs, hp]

theorem time_coercion_time_component_witness :
    TimeField.toPython parseFixture (Value.datetime fixtureDt)
        = Except.ok (Value.time ⟨13, 44, 1, 0⟩)
    ∧ parseFixture "2015-09-10 13:44:01" = Except.ok fixtureDt
    ∧ TimeField.toPython parseFixture (Value.str "2015-09-10 13:44:01")
        = Except.ok (Value.time ⟨13, 44, 1, 0⟩) :=
  ⟨(time_coercion_time_component parseFixture).1 fixtureDt,
   rfl,
   (time_coercion_time_component parseFixture).2 "2015-09-10 13:44:01" fixtureDt
     (by decide) rfl⟩

/-- C6: on a non-empty string the flexible parser rejects, datetime and
time coercion each return exactly a `ValidationException` (no other error
kind) referencing the original input string and the underlying parse
failure. -/
theorem unparseable_string_validation_error (parse : String → Except String Datetime)
    (s e : String) (hs : s ≠ "") (hp : parse s = Except.error e) :
    DateTimeField.toPython parse (Value.str s)
      = Except.error (FieldError.validationException dtParseMsg (Value.str s) e)
    ∧ TimeField.toPython parse (Value.str s)
      = Except.error (FieldError.validationException timeParseMsg (Value.str s) e) := by
  have hf := isFalsy_str_false s hs
  constructor
  · simp [DateTimeField.toPython, hf, hp]
  · simp [TimeField.toPython, hf, hp]

theorem unparseable_string_validation_error_witness :
    parseFixture "not a date" = Except.error "ValueError"
    ∧ DateTimeField.toPython parseFixture (Value.str "not a date")
        = Except.error (FieldError.validationException dtParseMsg
            (Value.str "not a date") "ValueError")
    ∧ TimeField.toPython parseFixture (Value.str "not a date")
        = Except.error (FieldError.validationException timeParseMsg
            (Value.str "not a date") "ValueError") :=
  ⟨rfl,
   (unparseable_string_validation_error parseFixture "not a date" "ValueError"
     (by decide) rfl).1,
   (unparseable_string_validation_error parseFixture "not a date" "ValueError"
     (by decide) rfl).2⟩

/-- C3: when the target name is registered, `ReferenceField.clean`
delegates to the base validation exactly when the value is an instance of
the resolved target class, a plain `list`, an `AttrDict` or an `AttrList`,
and returns every other value unmodified without invoking the base. -/
theorem referencefield_clean_dispatch (registry : List String) (f : RefFieldState)
    (baseClean : Value → Except FieldError Value) (data : Value)
    (hreg : registry.contains f.docClassName = true) :
    (ReferenceField.matchesCleanTypes f.docClassName data = true →
        ReferenceField.clean registry f baseClean data = baseClean data)
    ∧ (ReferenceField.matchesCleanTypes f.docClassName data = false →
        ReferenceField.clean registry f baseClean data = Except.ok data) := by
  unfold ReferenceField.clean get_document_cls
  rw [hreg]
  constructor <;> intro h <;> simp [h]

theorem referencefield_clean_dispatch_witness :
    ((["Story"] : List String).contains
        (ReferenceField.init "Story" false []).docClassName = true)
    ∧ ReferenceField.clean ["Story"] (ReferenceField.init "Story" false [])
        Except.ok (Value.int 7) = Except.ok (Value.int 7)
    ∧ ReferenceField.clean ["Story"] (ReferenceField.init "Story" false [])
        Except.ok (Value.doc "Story") = Except.ok (Value.doc "Story") :=
  ⟨rfl,
   (referencefield_clean_dispatch ["Story"] (ReferenceField.init "Story" false [])
     Except.ok (Value.int 7) rfl).2 rfl,
   (referencefield_clean_dispatch ["Story"] (ReferenceField.init "Story" false [])
     Except.ok (Value.doc "Story") rfl).1 rfl⟩

/-- C10: `ReferenceField.clean` resolves the target class through the
registry before the type test, so with an unregistered target name it
raises the lookup error for every input value — including raw values that a
registered field would return unmodified. -/
theorem referencefield_clean_unregistered (registry : List String) (f : RefFieldState)
    (baseClean : Value → Except FieldError Value) (data : Value)
    (hreg : registry.contains f.docClassName = false) :
    ReferenceField.clean registry f baseClean data
      = Except.error (FieldError.documentLookupError f.docClassName) := by
  unfold ReferenceField.clean get_document_cls
  rw [hreg]
  simp

theorem referencefield_clean_unregistered_witness :
    (([] : List String).contains
        (ReferenceField.init "Story" false []).docClassName = false)
    ∧ ReferenceField.clean [] (ReferenceField.init "Story" false [])
        Except.ok (Value.int 5)
        = Except.error (FieldError.documentLookupError "Story") :=
  ⟨rfl,
   referencefield_clean_unregistered [] (ReferenceField.init "Story" false [])
     Except.ok (Value.int 5) rfl⟩

/-- C2 (counterexample): `ReferenceField` does not include
`BaseFieldMixin`, so a field of the module constructed with
`primary_key=True` keeps `_required = False`; the flag is accepted but
merely stored among the base parameters. -/
theorem referencefield_primary_key_not_required :
    (ReferenceField.init "Story" false
        [(keyPrimaryKey, Value.bool true)]).base.required = Value.bool false
    ∧ Kwargs.get? (ReferenceField.init "Story" false
        [(keyPrimaryKey, Value.bool true)]).base.params keyPrimaryKey
        = some (Value.bool true) :=
  ⟨rfl, rfl⟩

/-- C2 (amended): every field class that includes `BaseFieldMixin` accepts
a `primary_key` option, and a truthy `primary_key` forces `_required =
True` — except `IdField`, which resets `_required` to `False` afterwards;
`ReferenceField` does not include the mixin and leaves `_required`
unaffected by the flag (see the counterexample). -/
theorem primary_key_forces_required (kwargs : Kwargs)
    (h : ((Kwargs.get? kwargs keyPrimaryKey).getD (Value.bool false)).isFalsy = false) :
    (BaseFieldMixin.init kwargs).required = Value.bool true
    ∧ (IntegerField.init kwargs).required = Value.bool true
    ∧ (StringField.init kwargs).required = Value.bool true
    ∧ (BooleanField.init kwargs).required = Value.bool true
    ∧ (IdField.init kwargs).required = Value.bool false := by
  have hmix : (BaseFieldMixin.init kwargs).required = Value.bool true := by
    simp only [BaseFieldMixin.init, Kwargs.pop]
    rw [h]
    simp only [Bool.false_eq_true, if_false]
    rw [Field.init_required, Kwargs.get_set_self]
    rfl
  exact ⟨hmix, hmix, hmix, hmix, rfl⟩

theorem primary_key_forces_required_witness :
    ((Kwargs.get? [(keyPrimaryKey, Value.bool true)] keyPrimaryKey).getD
        (Value.bool false)).isFalsy = false
    ∧ (IntegerField.init [(keyPrimaryKey, Value.bool true)]).required
        = Value.bool true :=
  ⟨rfl, (primary_key_forces_required [(keyPrimaryKey, Value.bool true)] rfl).2.1⟩

/-- A key that starts with the backref marker is the marker followed by its
stripped remainder. -/
theorem key_of_marked (k : Key) (h : k.take 8 = backrefMarker) :
    backrefMarker ++ k.drop 8 = k := by
  rw [← h, List.take_append_drop]

/-- Lookups in the extracted `_backref_kwargs` under a stripped key agree
with lookups in the original kwargs under the marked key. -/
theorem extract_backrefs_get (kwargs : Kwargs) (k : Key)
    (h : k.take 8 = backrefMarker) :
    Kwargs.get? (ReferenceField.extractBackrefs kwargs).1 (k.drop 8)
      = Kwargs.get? kwargs k := by
  induction kwargs with
  | nil => rfl
  | cons p rest ih =>
    obtain ⟨pk, pv⟩ := p
    by_cases hp : pk.take 8 = backrefMarker
    · by_cases hd : pk.drop 8 = k.drop 8
      · have hk : pk = k := by
          rw [← key_of_marked pk hp, ← key_of_marked k h, hd]
        simp [ReferenceField.extractBackrefs, hp, h, Kwargs.get?, hd, hk]
      · have hk : pk ≠ k := fun hh => hd (by rw [hh])
        simp [ReferenceField.extractBackrefs, hp, Kwargs.get?, hd, hk, ih]
    · have hk : pk ≠ k := fun hh => hp (by rw [hh, h])
      simp [ReferenceField.extractBackrefs, hp, Kwargs.get?, hk, ih]

/-- No marked key survives in the kwargs handed to the base constructor. -/
theorem extract_backrefs_removed (kwargs : Kwargs) (k : Key)
    (h : k.take 8 = backrefMarker) :
    Kwargs.get? (ReferenceField.extractBackrefs kwargs).2 k = Option.none := by
  induction kwargs with
  | nil => rfl
  | cons p rest ih =>
    obtain ⟨pk, pv⟩ := p
    by_cases hp : pk.take 8 = backrefMarker
    · simp [ReferenceField.extractBackrefs, hp, ih]
    · have hk : pk ≠ k := fun hh => hp (by rw [hh, h])
      simp [ReferenceField.extractBackrefs, hp, Kwargs.get?, hk, ih]

/-- C8: constructing `ReferenceField`, every option whose key starts with
the `backref_` marker is stored in `_backref_kwargs` under the key with the
marker stripped, and no marked key reaches the parameters kept by the base
field constructor. -/
theorem backref_kwargs_extracted (dc : String) (ib : Bool) (kwargs : Kwargs)
    (k : Key) (h : k.take 8 = backrefMarker) :
    Kwargs.get? (ReferenceField.init dc ib kwargs).backrefKwargs (k.drop 8)
      = Kwargs.get? kwargs k
    ∧ Kwargs.get? (ReferenceField.init dc ib kwargs).base.params k = Option.none := by
  constructor
  · exact extract_backrefs_get kwargs k h
  · have hm : k ≠ keyMulti := by
      intro hh; rw [hh] at h; exact absurd h (by decide)
    have hr : k ≠ keyRequired := by
      intro hh; rw [hh] at h; exact absurd h (by decide)
    show Kwargs.get? (Field.init (ReferenceField.extractBackrefs kwargs).2).params k
        = Option.none
    simp only [Field.init, Kwargs.pop]
    rw [Kwargs.get_removeAll_ne _ _ _ hr, Kwargs.get_removeAll_ne _ _ _ hm,
      extract_backrefs_removed kwargs k h]

theorem backref_kwargs_extracted_witness :
    ("backref_name".toList.take 8 = backrefMarker)
    ∧ Kwargs.get? (ReferenceField.init "Story" false
        [("backref_name".toList, Value.str "authored_posts")]).backrefKwargs
        ("backref_name".toList.drop 8) = some (Value.str "authored_posts")
    ∧ Kwargs.get? (ReferenceField.init "Story" false
        [("backref_name".toList, Value.str "authored_posts")]).base.params
        "backref_name".toList = Option.none := by
  refine ⟨by decide, ?_, ?_⟩
  · rw [(backref_kwargs_extracted "Story" false
      [("backref_name".toList, Value.str "authored_posts")]
      "backref_name".toList (by decide)).1]
    rfl
  · exact (backref_kwargs_extracted "Story" false
      [("backref_name".toList, Value.str "authored_posts")]
      "backref_name".toList (by decide)).2
